import Mathlib

/-!
Verification development for `src/destiny_guardian.py`, a single-file tool that
exports a Destiny 2 character's equipped items (with applied shader, ornament
and up to six visible perks) to a JSON file.

The Python source is shallowly embedded: JSON response trees are represented by
typed structures whose `Option` fields model possibly-missing dictionary keys,
remote calls are parameters (oracles / scripted environments), mutable state
(the token file, the session authorization header, the output file) is passed
explicitly, and exceptions / `sys.exit` are modelled with `Except`.
-/

set_option maxHeartbeats 1000000

namespace DestinyGuardian

/-! ## Python-semantics helpers -/

/-- Truthiness of an optional integer field: Python treats `None` and `0` as falsy. -/
def pyTruthyNat : Option Nat → Bool
  | none => false
  | some n => n != 0

/-- Python `a or b` on optional integer fields (`a` if truthy, else `b`). -/
def pyOrNat (a b : Option Nat) : Option Nat :=
  if pyTruthyNat a then a else b

/-- Truthiness of an optional string: Python treats `None` and `""` as falsy. -/
def pyTruthyStr : Option String → Bool
  | none => false
  | some s => s != ""

/-- Python `a or b` where `a` is an optional string and `b` a string default. -/
def pyOrStr (a : Option String) (b : String) : String :=
  match a with
  | none => b
  | some s => if s = "" then b else s

/-- Python `a or b` on two optional strings (used for `itemTypeDisplayName or
itemTypeAndTierDisplayName`). -/
def pyOrOptStr (a b : Option String) : Option String :=
  if pyTruthyStr a then a else b

/-- Python `s.lower()` restricted to ASCII (all catalog identifiers compared
by the source are ASCII). -/
def lowerChar (c : Char) : Char :=
  if 'A' ≤ c ∧ c ≤ 'Z' then Char.ofNat (c.toNat + 32) else c

def strToLower (s : String) : String :=
  String.mk (s.toList.map lowerChar)

/-- Test that `needle` is a prefix of `hay` (on character lists). -/
def charsPrefixOf : List Char → List Char → Bool
  | [], _ => true
  | _ :: _, [] => false
  | a :: as, b :: bs => a == b && charsPrefixOf as bs

/-- Test that `needle` occurs as a contiguous run inside `hay` (on character lists). -/
def charsContainsSub (needle : List Char) : List Char → Bool
  | [] => charsPrefixOf needle []
  | b :: bs => charsPrefixOf needle (b :: bs) || charsContainsSub needle bs

/-- Python `needle in hay` on strings (substring containment). -/
def strContainsSub (hay needle : String) : Bool :=
  charsContainsSub needle.toList hay.toList

/-! ## Data model: sockets, plugs and catalog definitions

Typed images of the JSON sub-trees the source reads.  An `Option` field models
a dictionary key that may be absent (`.get` returning `None`). -/

/-- The `plug` sub-record of a socket state (`s["plug"]`). -/
structure PlugState where
  plugItemHash : Option Nat
deriving DecidableEq

/-- One socket state entry.  `plug = none` models an absent (or falsy) `plug`
key, in which case the source substitutes the empty dict. -/
structure SocketState where
  plug : Option PlugState
  plugHash : Option Nat
deriving DecidableEq

/-- The per-item sockets component (`sockets_by_item[instance_id]`);
`sockets = none` models an absent or falsy `sockets` key. -/
structure SocketsComp where
  sockets : Option (List SocketState)
deriving DecidableEq

/-- A `DestinyInventoryItemDefinition` record, restricted to the fields the
source reads: `displayProperties.name`, `displayProperties.icon`,
`itemTypeDisplayName`, `itemTypeAndTierDisplayName` and
`plug.plugCategoryIdentifier`. -/
structure EntityDef where
  name : Option String
  icon : Option String
  itemTypeDisplayName : Option String
  itemTypeAndTierDisplayName : Option String
  plugCategoryIdentifier : Option String
deriving DecidableEq

/-- Outcome of `get_entity("DestinyInventoryItemDefinition", h)` as seen by its
callers: `none` models any exception raised by the lookup (every caller wraps
the call in `try/except`). -/
def EntityOracle : Type := Nat → Option EntityDef

/-- Source expression `sockets_component.get("sockets") or []` (line 161 / 194). -/
def socketsOf (sc : SocketsComp) : List SocketState :=
  sc.sockets.getD []

/-- The plugged hash read from a socket: `plug.get("plugItemHash")` first and
the socket-level `plugHash` if the former is falsy (lines 164-168; the
equivalent `or` one-liner on line 197). -/
def socketPlugHash (s : SocketState) : Option Nat :=
  pyOrNat (match s.plug with | none => none | some p => p.plugItemHash) s.plugHash

/-- The shader test of line 181:
`"shader" in cat_id.lower() or type_name.lower() == "shader"`. -/
def srcShaderTest (pdef : EntityDef) : Bool :=
  strContainsSub (strToLower (pdef.plugCategoryIdentifier.getD "")) "shader"
    || strToLower (pyOrStr pdef.itemTypeDisplayName "") == "shader"

/-- The ornament test of line 184:
`"ornament" in type_name.lower() or "skin" in cat_id.lower()`. -/
def srcOrnamentTest (pdef : EntityDef) : Bool :=
  strContainsSub (strToLower (pyOrStr pdef.itemTypeDisplayName "")) "ornament"
    || strContainsSub (strToLower (pdef.plugCategoryIdentifier.getD "")) "skin"

/-- Loop body of `find_applied_shader_and_ornament` (lines 163-185), with the
`shader_hash` / `ornament_hash` accumulators made explicit. -/
def findSO_go (entity : EntityOracle) :
    List SocketState → Option Nat → Option Nat → Option Nat × Option Nat
  | [], shader, ornament => (shader, ornament)
  | s :: rest, shader, ornament =>
    let ph := socketPlugHash s
    if !(pyTruthyNat ph) then findSO_go entity rest shader ornament
    else
      match entity (ph.getD 0) with
      | none => findSO_go entity rest shader ornament
      | some pdef =>
        let shader' := if (!(pyTruthyNat shader) && srcShaderTest pdef) then ph else shader
        let ornament' :=
          if (!(pyTruthyNat ornament) && srcOrnamentTest pdef) then ph else ornament
        findSO_go entity rest shader' ornament'

/-- Source function `find_applied_shader_and_ornament` (lines 157-186). -/
def find_applied_shader_and_ornament (entity : EntityOracle) (sc : SocketsComp) :
    Option Nat × Option Nat :=
  findSO_go entity (socketsOf sc) none none

/-- The fixed perk-category substrings of line 210. -/
def perkCategoryKeys : List String :=
  ["intrinsics", "barrels", "magazines", "frames", "traits", "origin"]

/-- Loop body of `extract_visible_perks` (lines 195-211), returning the full
perk list before the final `[:6]` truncation. -/
def extractPerks_go (entity : EntityOracle) : List SocketState → List Nat
  | [] => []
  | s :: rest =>
    let ph := socketPlugHash s
    if !(pyTruthyNat ph) then extractPerks_go entity rest
    else
      match entity (ph.getD 0) with
      | none => extractPerks_go entity rest
      | some pdef =>
        let type_name := strToLower (pyOrStr pdef.itemTypeDisplayName "")
        let cat_id := strToLower (pyOrStr pdef.plugCategoryIdentifier "")
        if strContainsSub cat_id "shader" || type_name == "shader"
            || strContainsSub type_name "ornament" || strContainsSub cat_id "skin" then
          extractPerks_go entity rest
        else if perkCategoryKeys.any (fun key => strContainsSub cat_id key) then
          ph.getD 0 :: extractPerks_go entity rest
        else extractPerks_go entity rest

/-- Source function `extract_visible_perks` (lines 189-212); `perks[:6]` is the final `take 6`. -/
def extract_visible_perks (entity : EntityOracle) (sc : SocketsComp) : List Nat :=
  (extractPerks_go entity (socketsOf sc)).take 6

/-! ## Spec-side classification predicates (claim C2)

These follow the words of the specification, to be compared with the functions
embedded from the source. -/

/-- Spec wording: a plug is the shader iff its plug-category identifier
contains "shader" (case-insensitive) or its type display name equals "Shader"
(case-insensitive). -/
def specIsShader (d : EntityDef) : Bool :=
  strContainsSub (strToLower (d.plugCategoryIdentifier.getD "")) "shader"
    || strToLower (d.itemTypeDisplayName.getD "") == "shader"

/-- Spec wording: a plug is the ornament iff its type display name contains
"ornament" or its plug-category identifier contains "skin" (case-insensitive). -/
def specIsOrnament (d : EntityDef) : Bool :=
  strContainsSub (strToLower (d.itemTypeDisplayName.getD "")) "ornament"
    || strContainsSub (strToLower (d.plugCategoryIdentifier.getD "")) "skin"

/-- Spec wording: the perk-category test — the plug-category identifier
contains one of the fixed substrings. -/
def specIsPerkCat (d : EntityDef) : Bool :=
  perkCategoryKeys.any (fun key => strContainsSub (strToLower (d.plugCategoryIdentifier.getD "")) key)

/-- Spec wording: the sockets in order, restricted to those whose plugged
identifier (plug.plugItemHash first, socket-level plugHash second, first
non-empty wins) is non-empty and whose definition resolves, each paired with
its resolved definition. -/
def resolvedPlugs (entity : EntityOracle) (ss : List SocketState) : List (Nat × EntityDef) :=
  ss.filterMap (fun s =>
    let ph := socketPlugHash s
    if pyTruthyNat ph then (entity (ph.getD 0)).map (fun d => (ph.getD 0, d)) else none)

/-! ## Item decoration helpers (lines 139-154) -/

/-- Source function `friendly_item_name` (lines 139-144): the definition's display name, or
`str(item_hash)` when the name is missing or the lookup raised. -/
def friendly_item_name (entity : EntityOracle) (itemHash : Nat) : String :=
  match entity itemHash with
  | some ent => ent.name.getD (toString itemHash)
  | none => toString itemHash

/-- Source function `get_item_icon_and_type` (lines 147-154). -/
def get_item_icon_and_type (entity : EntityOracle) (itemHash : Nat) :
    Option String × Option String :=
  match entity itemHash with
  | some ent => (ent.icon, pyOrOptStr ent.itemTypeDisplayName ent.itemTypeAndTierDisplayName)
  | none => (none, none)

/-! ## Errors, exits and exit codes

`RunErr.bungie` is a raised `BungieError` (caught in `__main__`, exit code 2),
`RunErr.exited` is the `sys.exit(1)` of `load_tokens`, and `RunErr.crash` is
any other uncaught Python exception (interpreter exit code 1). -/

inductive RunErr where
  | bungie (msg : String)
  | exited
  | crash (msg : String)
deriving DecidableEq

/-- Process exit status for a finished run (lines 317-322: `BungieError` is
caught and mapped to `sys.exit(2)`; `load_tokens` exits with 1; any other
uncaught exception makes the interpreter exit with 1; success exits 0). -/
def exitCode : Except RunErr String → Nat
  | .ok _ => 0
  | .error (.bungie _) => 2
  | .error .exited => 1
  | .error (.crash _) => 1

deriving instance DecidableEq for Except

/-! ## Character selection (`pick_character_id`, lines 215-234) -/

/-- Per-character metadata, as read by `pick_character_id`
(`cdata.get("dateLastPlayed")`).  A character whose metadata dict is empty is
modelled by omitting its entry from the map: Python's `if not cdata: continue`
skips `None` and the falsy `{}` alike. -/
structure CharData where
  dateLastPlayed : Option String
deriving DecidableEq

/-- Range-check the parsed calendar fields and encode them as one integer,
strictly increasing in chronological order. -/
def encodeTs (year month day hour minute second : Nat) : Option Nat :=
  if 1 ≤ month ∧ month ≤ 12 ∧ 1 ≤ day ∧ day ≤ 31 ∧ hour ≤ 23 ∧
      minute ≤ 59 ∧ second ≤ 61 then
    some (((((year * 13 + month) * 32 + day) * 24 + hour) * 60 + minute) * 62 + second)
  else none

/-- Modelled from the spec: `time.strptime(value[:19], "%Y-%m-%dT%H:%M:%S")`
composed with `int(time.mktime(...))` — both from the Python standard library,
outside `src/`.  Parses the 19-character prefix in the fixed format, checking
digit positions, the literal separators and the calendar-field ranges, and
encodes the parsed fields as one integer that is strictly increasing in
chronological order; `none` models the `ValueError` raised on a mismatch. -/
def parseLastPlayed (s : String) : Option Nat :=
  match s.toList.take 19 with
  | [y1, y2, y3, y4, h1, mo1, mo2, h2, d1, d2, tc, hh1, hh2, c1, mi1, mi2, c2, se1, se2] =>
    if h1 = '-' ∧ h2 = '-' ∧ tc = 'T' ∧ c1 = ':' ∧ c2 = ':' ∧
        y1.isDigit ∧ y2.isDigit ∧ y3.isDigit ∧ y4.isDigit ∧
        mo1.isDigit ∧ mo2.isDigit ∧ d1.isDigit ∧ d2.isDigit ∧
        hh1.isDigit ∧ hh2.isDigit ∧ mi1.isDigit ∧ mi2.isDigit ∧
        se1.isDigit ∧ se2.isDigit then
      encodeTs
        (((y1.toNat - 48) * 10 + (y2.toNat - 48)) * 100
          + (y3.toNat - 48) * 10 + (y4.toNat - 48))
        ((mo1.toNat - 48) * 10 + (mo2.toNat - 48))
        ((d1.toNat - 48) * 10 + (d2.toNat - 48))
        ((hh1.toNat - 48) * 10 + (hh2.toNat - 48))
        ((mi1.toNat - 48) * 10 + (mi2.toNat - 48))
        ((se1.toNat - 48) * 10 + (se2.toNat - 48))
    else none
  | _ => none

/-- Loop of lines 223-230, with `latest` / `latest_time` explicit.  An
unparsable or missing `dateLastPlayed` raises (`ValueError` from `strptime`,
or `TypeError` from slicing `None`): the loop does not catch it. -/
def pickLatest_go (chars : List (String × CharData)) :
    List String → Option String → Nat → Except RunErr (Option String)
  | [], latest, _ => .ok latest
  | cid :: rest, latest, latestTime =>
    match List.lookup cid chars with
    | none => pickLatest_go chars rest latest latestTime
    | some cdata =>
      match cdata.dateLastPlayed with
      | none => .error (.crash "TypeError: NoneType is not subscriptable")
      | some dstr =>
        match parseLastPlayed dstr with
        | none => .error (.crash "ValueError: time data does not match format")
        | some mtime =>
          if mtime > latestTime then pickLatest_go chars rest (some cid) mtime
          else pickLatest_go chars rest latest latestTime

/-- The equipment list of one character (`equip.get("items", [])`). -/
structure EquipItem where
  itemInstanceId : Option String
  itemHash : Option Nat
deriving DecidableEq

structure EquipBlock where
  items : List EquipItem
deriving DecidableEq

/-- The profile snapshot, restricted to the paths `main` and
`pick_character_id` read.  Each field flattens a `.get(k1, default)` chain:
`characterIds` is `profile.get("profile", {}).get("data", {}).get("characterIds", [])`,
`charactersData` is `profile.get("characters", {}).get("data", {})`,
`characterEquipmentData` is `profile.get("characterEquipment", {}).get("data", {})`,
and `socketsData` is `profile.get("itemComponents", {}).get("sockets", {}).get("data", {})`.
Dictionaries keyed by id strings are association lists. -/
structure Profile where
  characterIds : List String
  charactersData : List (String × CharData)
  characterEquipmentData : List (String × EquipBlock)
  socketsData : List (String × SocketsComp)
deriving DecidableEq

/-- Source function `pick_character_id` (lines 215-234). -/
def pick_character_id (profile : Profile) (choice : String) : Except RunErr String :=
  if profile.characterIds = [] then .error (.bungie "No characters found.")
  else if choice = "latest" then
    match pickLatest_go profile.charactersData profile.characterIds none 0 with
    | .error e => .error e
    | .ok latest => .ok (pyOrStr latest (profile.characterIds.headD ""))
  else .ok choice

/-! ## Token store, auth session and `bnet_get` (lines 59-113) -/

/-- The credential record in `tokens.json`.  `Option` fields model key
presence; `dict.update` merge (line 102) is key-wise replacement. -/
structure TokRecord where
  access_token : Option String
  refresh_token : Option String
  expires_in : Option Int
  issued_at : Option Int
deriving DecidableEq

/-- Source expression `tokens.update(new_tokens)` (line 102): keys present in `new` win. -/
def TokRecord.updateWith (old new : TokRecord) : TokRecord where
  access_token := new.access_token <|> old.access_token
  refresh_token := new.refresh_token <|> old.refresh_token
  expires_in := new.expires_in <|> old.expires_in
  issued_at := new.issued_at <|> old.issued_at

/-- The state `bnet_get` can read and write: the token file on disk and the
session's `Authorization` header. -/
structure AuthState where
  tokensFile : Option TokRecord
  authHeader : Option String
deriving DecidableEq

/-- An HTTP response to a `SESSION.get` call, restricted to what `bnet_get`
reads: status, raw text, and the parsed body's `ErrorCode` / `ErrorStatus` /
`Message` / `Response` fields (`ErrorCode` is `none` when the key is absent). -/
structure GetResp (α : Type) where
  status : Nat
  text : String
  errorCode : Option Int
  errorStatus : String
  message : String
  response : α

/-- The scripted remote environment for `bnet_get`: client credentials from
the process environment, the GET responses as a function of path and current
`Authorization` header, and the refresh endpoint's answer (`.error` carries a
non-200 status and body text). -/
structure NetEnv (α : Type) where
  clientId : String
  clientSecret : String
  get : String → Option String → GetResp α
  refresh : String → Except (Nat × String) TokRecord

/-- One outbound HTTP call, for counting requests. -/
inductive NetCallRec where
  | get (path : String)
  | refreshPost
deriving DecidableEq, BEq

/-- Source function `load_tokens` (lines 59-65): a missing file prints and exits with status 1. -/
def load_tokens (st : AuthState) : Except RunErr TokRecord :=
  match st.tokensFile with
  | some toks => .ok toks
  | none => .error .exited

/-- Source function `oauth_refresh` (lines 77-91), also reporting whether the refresh endpoint
was actually called (the credential check raises before any request). -/
def oauth_refresh (env : NetEnv α) (refreshToken : String) :
    List NetCallRec × Except RunErr TokRecord :=
  if env.clientId = "" || env.clientSecret = "" then
    ([], .error (.bungie "CLIENT_ID/CLIENT_SECRET missing for token refresh."))
  else
    ([.refreshPost],
      match env.refresh refreshToken with
      | .error p => .error (.bungie ("Refresh failed: " ++ toString p.1 ++ " " ++ p.2))
      | .ok toks => .ok toks)

/-- Source function `bnet_get` with `retry_on_401=False` (lines 94-113 with the 401 branch
disabled): returns the new auth state, the call trace, and the result. -/
def bnet_get_noretry (env : NetEnv α) (path : String) (st : AuthState) :
    AuthState × List NetCallRec × Except RunErr α :=
  let r := env.get path st.authHeader
  if r.status ≠ 200 then
    (st, [.get path], .error (.bungie ("HTTP " ++ toString r.status ++ ": " ++ r.text)))
  else if r.errorCode ≠ some 1 then
    (st, [.get path],
      .error (.bungie ("Bungie error " ++ r.errorStatus ++ ": " ++ r.message)))
  else
    (st, [.get path], .ok r.response)

/-- Source function `bnet_get` with `retry_on_401=True` (lines 94-113): on a 401, reload the
token file, refresh, merge-and-save, update the header, and retry exactly once
(the recursive call passes `retry_on_401=False`). -/
def bnet_get (env : NetEnv α) (path : String) (st : AuthState) :
    AuthState × List NetCallRec × Except RunErr α :=
  let r := env.get path st.authHeader
  if r.status = 401 then
    match load_tokens st with
    | .error e => (st, [.get path], .error e)
    | .ok tokens =>
      match oauth_refresh env (tokens.refresh_token.getD "") with
      | (rcalls, .error e) => (st, .get path :: rcalls, .error e)
      | (rcalls, .ok newTokens) =>
        let merged := tokens.updateWith newTokens
        let st1 : AuthState := { tokensFile := some merged, authHeader := st.authHeader }
        match merged.access_token with
        | none => (st1, .get path :: rcalls, .error (.crash "KeyError: access_token"))
        | some tok =>
          let st2 : AuthState := { st1 with authHeader := some ("Bearer " ++ tok) }
          let out := bnet_get_noretry env path st2
          (out.1, .get path :: rcalls ++ out.2.1, out.2.2)
  else
    bnet_get_noretry env path st

/-! ## `main` (lines 237-314) -/

/-- One entry of `memberships["destinyMemberships"]`, restricted to the two
keys line 124 reads. -/
structure Mem where
  membershipType : Int
  membershipId : String
deriving DecidableEq

structure Memberships where
  destinyMemberships : List Mem
deriving DecidableEq

/-- Source function `pick_first_destiny_membership` (lines 120-125). -/
def pick_first_destiny_membership (mems : Memberships) : Except RunErr (Int × String) :=
  match mems.destinyMemberships with
  | m :: _ => .ok (m.membershipType, m.membershipId)
  | [] => .error (.bungie "No Destiny memberships found on this account.")

/-- The `"appliedShader"` / `"appliedOrnament"` sub-objects of an exported record
(lines 297-304): always an object with `itemHash` and `name` keys, each of
which may be `null`. -/
structure AppliedRef where
  itemHash : Option Nat
  name : Option String
deriving DecidableEq

/-- One exported Equipped Item Record (lines 291-308), field for field. -/
structure ItemRec where
  itemHash : Nat
  itemName : String
  itemType : Option String
  icon : Option String
  instanceId : Option String
  appliedShader : AppliedRef
  appliedOrnament : AppliedRef
  visiblePerks : List (Nat × String)
deriving DecidableEq

/-- The exported document (lines 274-279). -/
structure OutDoc where
  membershipType : Int
  membershipId : String
  characterId : String
  items : List ItemRec
deriving DecidableEq

/-- The per-item record construction of lines 281-308 for one equipped item
whose `itemHash` passed the truthiness check. -/
def buildItemRec (entity : EntityOracle) (socketsData : List (String × SocketsComp))
    (it : EquipItem) (itemHash : Nat) : ItemRec :=
  let iconType := get_item_icon_and_type entity itemHash
  let socketsComp :=
    if pyTruthyStr it.itemInstanceId then
      (List.lookup (it.itemInstanceId.getD "") socketsData).getD ⟨none⟩
    else ⟨none⟩
  let so := find_applied_shader_and_ornament entity socketsComp
  let perkHashes := extract_visible_perks entity socketsComp
  { itemHash := itemHash
    itemName := friendly_item_name entity itemHash
    itemType := iconType.2
    icon := iconType.1
    instanceId := it.itemInstanceId
    appliedShader :=
      ⟨so.1, if pyTruthyNat so.1 then some (friendly_item_name entity (so.1.getD 0)) else none⟩
    appliedOrnament :=
      ⟨so.2, if pyTruthyNat so.2 then some (friendly_item_name entity (so.2.getD 0)) else none⟩
    visiblePerks := perkHashes.map (fun h => (h, friendly_item_name entity h)) }

/-- The `for it in equipped` loop (lines 281-309): items with a falsy
`itemHash` are skipped silently. -/
def buildItems (entity : EntityOracle) (socketsData : List (String × SocketsComp)) :
    List EquipItem → List ItemRec
  | [] => []
  | it :: rest =>
    if !(pyTruthyNat it.itemHash) then buildItems entity socketsData rest
    else buildItemRec entity socketsData it (it.itemHash.getD 0)
      :: buildItems entity socketsData rest

/-- The state `main` can read and write: the token file, the session header,
and the output file at `args.out` (`none` = not present / never written). -/
structure MainWorld where
  tokensFile : Option TokRecord
  authHeader : Option String
  outFile : Option OutDoc
deriving DecidableEq

/-- Command-line arguments (lines 238-241). -/
structure Args where
  character : String
  out : String
deriving DecidableEq

/-- The remote environment as `main` sees it, with the three API Client
operations abstracted to their results (their HTTP/refresh mechanics are
modelled separately by `bnet_get`; none of them ever writes the output file).
`entity` is the lookup oracle shared by all decoration/classification calls. -/
structure MainEnv where
  apiKey : String
  membershipsResp : Except RunErr Memberships
  profileResp : Int → String → Except RunErr Profile
  entity : EntityOracle

/-- Top-level remote operations actually attempted during a run, in order. -/
inductive ApiCall where
  | memberships
  | profileCall
deriving DecidableEq

/-- Source function `main` (lines 237-314) as a function from environment, arguments and world
to final world, attempted top-level API calls, and outcome (`.ok` is the
success message printed at line 314). -/
def mainRun (env : MainEnv) (args : Args) (w : MainWorld) :
    MainWorld × List ApiCall × Except RunErr String :=
  match w.tokensFile with
  | none => (w, [], .error .exited)
  | some tokens =>
    if !(pyTruthyStr tokens.access_token) then
      (w, [], .error (.bungie "access_token missing in tokens.json"))
    else if env.apiKey = "" then
      (w, [], .error (.bungie "BUNGIE_API_KEY env var not set."))
    else
      let w1 := { w with authHeader := some ("Bearer " ++ tokens.access_token.getD "") }
      match env.membershipsResp with
      | .error e => (w1, [.memberships], .error e)
      | .ok mems =>
        match pick_first_destiny_membership mems with
        | .error e => (w1, [.memberships], .error e)
        | .ok mtid =>
          match env.profileResp mtid.1 mtid.2 with
          | .error e => (w1, [.memberships, .profileCall], .error e)
          | .ok profile =>
            match pick_character_id profile args.character with
            | .error e => (w1, [.memberships, .profileCall], .error e)
            | .ok charId =>
              let equip := (List.lookup charId profile.characterEquipmentData).getD ⟨[]⟩
              let items := buildItems env.entity profile.socketsData equip.items
              let doc : OutDoc := ⟨mtid.1, mtid.2, charId, items⟩
              ({ w1 with outFile := some doc }, [.memberships, .profileCall],
                .ok ("Wrote " ++ args.out ++ " with " ++ toString items.length
                  ++ " equipped items."))

/-! ## JSON values, serialization and parsing (claim C5)

Modelled from the spec: `json.dump(..., indent=2)` and a JSON parser (Python's
`json` standard library, outside `src/`).  `Jv` is the JSON value tree; the
renderer reproduces `json.dump`'s two-space indented layout, and `parseJson`
is a standard whitespace-tolerant JSON reader. -/

inductive Jv where
  | null
  | bool (b : Bool)
  | num (n : Int)
  | str (s : String)
  | arr (elems : List Jv)
  | obj (fields : List (String × Jv))

def lbrace : Char := Char.ofNat 123
def rbrace : Char := Char.ofNat 125

/-- JSON string escaping for the characters our renderer may meet. -/
def escChar (c : Char) : List Char :=
  if c = '"' then ['\\', '"']
  else if c = '\\' then ['\\', '\\']
  else if c = '\n' then ['\\', 'n']
  else if c = '\t' then ['\\', 't']
  else if c = '\r' then ['\\', 'r']
  else [c]

def renderString (s : String) : String :=
  String.mk ('"' :: (s.toList.flatMap escChar) ++ ['"'])

def nSpaces : Nat → String
  | 0 => ""
  | n + 1 => " " ++ nSpaces n

mutual

def renderJv : Jv → Nat → String
  | .null, _ => "null"
  | .bool true, _ => "true"
  | .bool false, _ => "false"
  | .num n, _ => toString n
  | .str s, _ => renderString s
  | .arr [], _ => "[]"
  | .arr (x :: xs), lvl =>
    "[\n" ++ renderElems (x :: xs) (lvl + 1) ++ "\n" ++ nSpaces (2 * lvl) ++ "]"
  | .obj [], _ => String.mk [lbrace, rbrace]
  | .obj (f :: fs), lvl =>
    String.mk [lbrace] ++ "\n" ++ renderFields (f :: fs) (lvl + 1) ++ "\n"
      ++ nSpaces (2 * lvl) ++ String.mk [rbrace]

def renderElems : List Jv → Nat → String
  | [], _ => ""
  | [x], lvl => nSpaces (2 * lvl) ++ renderJv x lvl
  | x :: y :: xs, lvl =>
    nSpaces (2 * lvl) ++ renderJv x lvl ++ ",\n" ++ renderElems (y :: xs) lvl

def renderFields : List (String × Jv) → Nat → String
  | [], _ => ""
  | [f], lvl => nSpaces (2 * lvl) ++ renderString f.1 ++ ": " ++ renderJv f.2 lvl
  | f :: g :: fs, lvl =>
    nSpaces (2 * lvl) ++ renderString f.1 ++ ": " ++ renderJv f.2 lvl ++ ",\n"
      ++ renderFields (g :: fs) lvl

end

/-- Modelled `json.dump(results, f, indent=2)`: the document rendered at top level. -/
def renderJson (v : Jv) : String := renderJv v 0

def isWsChar (c : Char) : Bool := c = ' ' || c = '\n' || c = '\t' || c = '\r'

def skipWs : List Char → List Char
  | [] => []
  | c :: cs => if isWsChar c then skipWs cs else c :: cs

def takeDigits : List Char → List Char × List Char
  | [] => ([], [])
  | c :: cs =>
    if c.isDigit then
      let r := takeDigits cs
      (c :: r.1, r.2)
    else ([], c :: cs)

def digitsToNat (ds : List Char) : Nat :=
  ds.foldl (fun acc c => acc * 10 + (c.toNat - 48)) 0

def parseNum : List Char → Option (Int × List Char)
  | '-' :: cs =>
    match takeDigits cs with
    | ([], _) => none
    | (ds, rest) => some (-(digitsToNat ds : Int), rest)
  | cs =>
    match takeDigits cs with
    | ([], _) => none
    | (ds, rest) => some ((digitsToNat ds : Int), rest)

def unescChar (c : Char) : Option Char :=
  if c = '"' then some '"'
  else if c = '\\' then some '\\'
  else if c = 'n' then some '\n'
  else if c = 't' then some '\t'
  else if c = 'r' then some '\r'
  else none

/-- Read a JSON string body up to (and consuming) the closing quote. -/
def parseStrBody : List Char → Option (List Char × List Char)
  | [] => none
  | c :: cs =>
    if c = '"' then some ([], cs)
    else if c = '\\' then
      match cs with
      | [] => none
      | e :: cs2 =>
        match unescChar e with
        | none => none
        | some u =>
          match parseStrBody cs2 with
          | none => none
          | some r => some (u :: r.1, r.2)
    else
      match parseStrBody cs with
      | none => none
      | some r => some (c :: r.1, r.2)

mutual

def parseJv : Nat → List Char → Option (Jv × List Char)
  | 0, _ => none
  | fuel + 1, cs =>
    match skipWs cs with
    | [] => none
    | c :: rest =>
      if c = 'n' then
        match rest with
        | 'u' :: 'l' :: 'l' :: r => some (.null, r)
        | _ => none
      else if c = 't' then
        match rest with
        | 'r' :: 'u' :: 'e' :: r => some (.bool true, r)
        | _ => none
      else if c = 'f' then
        match rest with
        | 'a' :: 'l' :: 's' :: 'e' :: r => some (.bool false, r)
        | _ => none
      else if c = '"' then
        match parseStrBody rest with
        | none => none
        | some r => some (.str (String.mk r.1), r.2)
      else if c = '[' then
        match skipWs rest with
        | ']' :: r => some (.arr [], r)
        | r2 =>
          match parseElems fuel r2 with
          | none => none
          | some r => some (.arr r.1, r.2)
      else if c = lbrace then
        let r2 := skipWs rest
        if r2.head? = some rbrace then some (.obj [], r2.tail)
        else
          match parseFields fuel r2 with
          | none => none
          | some r => some (.obj r.1, r.2)
      else
        match parseNum (c :: rest) with
        | none => none
        | some r => some (.num r.1, r.2)

def parseElems : Nat → List Char → Option (List Jv × List Char)
  | 0, _ => none
  | fuel + 1, cs =>
    match parseJv fuel cs with
    | none => none
    | some vr =>
      match skipWs vr.2 with
      | ',' :: r3 =>
        match parseElems fuel r3 with
        | none => none
        | some er => some (vr.1 :: er.1, er.2)
      | ']' :: r3 => some ([vr.1], r3)
      | _ => none

def parseFields : Nat → List Char → Option (List (String × Jv) × List Char)
  | 0, _ => none
  | fuel + 1, cs =>
    match skipWs cs with
    | '"' :: r1 =>
      match parseStrBody r1 with
      | none => none
      | some kr =>
        match skipWs kr.2 with
        | ':' :: r2 =>
          match parseJv fuel r2 with
          | none => none
          | some vr =>
            match skipWs vr.2 with
            | ',' :: r3 =>
              match parseFields fuel r3 with
              | none => none
              | some fr => some ((String.mk kr.1, vr.1) :: fr.1, fr.2)
            | c :: r3 => if c = rbrace then some ([(String.mk kr.1, vr.1)], r3) else none
            | [] => none
        | _ => none
    | _ => none

end

/-- Parse a complete JSON document (modelled from the spec: `json.loads`). -/
def parseJson (s : String) : Option Jv :=
  match parseJv (s.length + 10) s.toList with
  | some vr => if skipWs vr.2 = [] then some vr.1 else none
  | none => none

/-! ## Rendering the exported document as a JSON value (lines 274-312) -/

def optNatJv : Option Nat → Jv
  | none => .null
  | some n => .num n

def optStrJv : Option String → Jv
  | none => .null
  | some s => .str s

def appliedRefToJv (a : AppliedRef) : Jv :=
  .obj [("itemHash", optNatJv a.itemHash), ("name", optStrJv a.name)]

/-- One exported record as the JSON object written by lines 291-308. -/
def itemRecToJv (r : ItemRec) : Jv :=
  .obj [("itemHash", .num r.itemHash),
        ("itemName", .str r.itemName),
        ("itemType", optStrJv r.itemType),
        ("icon", optStrJv r.icon),
        ("instanceId", optStrJv r.instanceId),
        ("appliedShader", appliedRefToJv r.appliedShader),
        ("appliedOrnament", appliedRefToJv r.appliedOrnament),
        ("visiblePerks",
          .arr (r.visiblePerks.map
            (fun p => .obj [("itemHash", .num p.1), ("name", .str p.2)])))]

/-- The whole `results` document as the JSON object written by lines 274-312. -/
def outDocToJv (d : OutDoc) : Jv :=
  .obj [("membershipType", .num d.membershipType),
        ("membershipId", .str d.membershipId),
        ("characterId", .str d.characterId),
        ("items", .arr (d.items.map itemRecToJv))]

/-- Object field lookup on a JSON value. -/
def Jv.getField (v : Jv) (k : String) : Option Jv :=
  match v with
  | .obj fields => List.lookup k fields
  | _ => none

/-! ## Concrete scenarios used by the witnesses and end-to-end claims -/

/-- A stored credential record with both tokens. -/
def wTok : TokRecord := ⟨some "old", some "rtok", none, none⟩

/-- A refresh response carrying a fresh token pair. -/
def wNewTok : TokRecord := ⟨some "new", some "rtok2", some 3600, none⟩

/-- Remote environment: requests carrying the refreshed token succeed, all
others are rejected with 401; the refresh endpoint succeeds. -/
def wEnvOK : NetEnv Nat :=
  ⟨"cid", "sec",
    fun _ h =>
      if h = some "Bearer new" then ⟨200, "ok", some 1, "Success", "", 42⟩
      else ⟨401, "unauthorized", none, "", "", 0⟩,
    fun _ => .ok wNewTok⟩

/-- Remote environment: every request is rejected with 401, the refresh
endpoint succeeds. -/
def wEnvBad : NetEnv Nat :=
  ⟨"cid", "sec", fun _ _ => ⟨401, "unauthorized", none, "", "", 0⟩, fun _ => .ok wNewTok⟩

/-- Session state before the call: token file present, old token in header. -/
def wSt : AuthState := ⟨some wTok, some "Bearer old"⟩

/-- C4 scenario: a profile with one character and no equipment. -/
def c4Prof : Profile := ⟨["c"], [], [], []⟩

def c4Env : MainEnv := ⟨"k", .ok ⟨[⟨3, "m"⟩]⟩, fun _ _ => .ok c4Prof, fun _ => none⟩

def c4Args : Args := ⟨"c", "out.json"⟩

/-- C4 scenario: the credential record has an access token but no refresh
token. -/
def c4World : MainWorld := ⟨some ⟨some "t", none, none, none⟩, none, none⟩

/-- C5 scenario: one character with one equipped item (hash 111, instance
"i") and no plugged sockets. -/
def c5Prof : Profile := ⟨["c"], [], [("c", ⟨[⟨some "i", some 111⟩]⟩)], []⟩

/-- C5 scenario: every definition lookup fails, so names fall back to the raw
hash. -/
def c5Env : MainEnv := ⟨"k", .ok ⟨[⟨3, "m"⟩]⟩, fun _ _ => .ok c5Prof, fun _ => none⟩

def c5Args : Args := ⟨"c", "out.json"⟩

def c5World : MainWorld := ⟨some ⟨some "t", some "r", none, none⟩, none, none⟩

/-- The document the C5 scenario exports: one record, `appliedShader` and
`appliedOrnament` objects with null members, empty `visiblePerks`. -/
def c5Doc : OutDoc :=
  ⟨3, "m", "c", [⟨111, "111", none, none, some "i", ⟨none, none⟩, ⟨none, none⟩, []⟩]⟩

/-- C8 scenario: the API-key environment variable is empty. -/
def c8Env : MainEnv := ⟨"", .ok ⟨[⟨3, "m"⟩]⟩, fun _ _ => .ok c4Prof, fun _ => none⟩

def c8Args : Args := ⟨"c", "out.json"⟩

def c8World : MainWorld := ⟨some ⟨some "t", some "r", none, none⟩, none, none⟩

/-- C9 scenario: same snapshot as C5 but selected with a literal character id
that occurs nowhere in the snapshot. -/
def c9Prof : Profile := ⟨["c"], [], [("c", ⟨[⟨some "i", some 111⟩]⟩)], []⟩

def c9Env : MainEnv := ⟨"k", .ok ⟨[⟨3, "m"⟩]⟩, fun _ _ => .ok c9Prof, fun _ => none⟩

def c9Args : Args := ⟨"zz", "out.json"⟩

def c9World : MainWorld := ⟨some ⟨some "t", some "r", none, none⟩, none, none⟩

/-! ## Helper lemmas for the classifier -/

theorem pyOrStr_empty (a : Option String) : pyOrStr a "" = a.getD "" := by
  cases a with
  | none => rfl
  | some s => by_cases h : s = "" <;> simp [pyOrStr, h]

theorem eq_some_getD_of_pyTruthyNat {o : Option Nat} (h : pyTruthyNat o = true) :
    o = some (o.getD 0) := by
  cases o with
  | none => simp [pyTruthyNat] at h
  | some n => rfl

theorem srcShaderTest_eq_spec (d : EntityDef) : srcShaderTest d = specIsShader d := by
  simp [srcShaderTest, specIsShader, pyOrStr_empty]

theorem srcOrnamentTest_eq_spec (d : EntityDef) : srcOrnamentTest d = specIsOrnament d := by
  simp [srcOrnamentTest, specIsOrnament, pyOrStr_empty]

theorem resolvedPlugs_cons_skip (entity : EntityOracle) (s : SocketState)
    (ss : List SocketState) (h : pyTruthyNat (socketPlugHash s) = false) :
    resolvedPlugs entity (s :: ss) = resolvedPlugs entity ss := by
  simp [resolvedPlugs, List.filterMap_cons, h]

theorem resolvedPlugs_cons_fail (entity : EntityOracle) (s : SocketState)
    (ss : List SocketState) (h : pyTruthyNat (socketPlugHash s) = true)
    (he : entity ((socketPlugHash s).getD 0) = none) :
    resolvedPlugs entity (s :: ss) = resolvedPlugs entity ss := by
  simp [resolvedPlugs, List.filterMap_cons, h, he]

theorem resolvedPlugs_cons_ok (entity : EntityOracle) (s : SocketState)
    (ss : List SocketState) (d : EntityDef) (h : pyTruthyNat (socketPlugHash s) = true)
    (he : entity ((socketPlugHash s).getD 0) = some d) :
    resolvedPlugs entity (s :: ss)
      = ((socketPlugHash s).getD 0, d) :: resolvedPlugs entity ss := by
  simp [resolvedPlugs, List.filterMap_cons, h, he]

theorem findSO_go_fst_of_truthy (entity : EntityOracle) (ss : List SocketState) :
    ∀ sh orn : Option Nat, pyTruthyNat sh = true → (findSO_go entity ss sh orn).1 = sh := by
  induction ss with
  | nil => intro sh orn _; rfl
  | cons s rest ih =>
    intro sh orn h
    by_cases hph : pyTruthyNat (socketPlugHash s) = true
    · cases he : entity ((socketPlugHash s).getD 0) with
      | none => simp only [findSO_go, hph, he]; simp; exact ih _ _ h
      | some d => simp only [findSO_go, hph, he]; simp [h]; exact ih _ _ h
    · simp only [findSO_go, Bool.not_eq_true] at hph ⊢
      simp [hph]; exact ih _ _ h

theorem findSO_go_snd_of_truthy (entity : EntityOracle) (ss : List SocketState) :
    ∀ sh orn : Option Nat, pyTruthyNat orn = true → (findSO_go entity ss sh orn).2 = orn := by
  induction ss with
  | nil => intro sh orn _; rfl
  | cons s rest ih =>
    intro sh orn h
    by_cases hph : pyTruthyNat (socketPlugHash s) = true
    · cases he : entity ((socketPlugHash s).getD 0) with
      | none => simp only [findSO_go, hph, he]; simp; exact ih _ _ h
      | some d => simp only [findSO_go, hph, he]; simp [h]; exact ih _ _ h
    · simp only [findSO_go, Bool.not_eq_true] at hph ⊢
      simp [hph]; exact ih _ _ h

theorem findSO_go_fst_none (entity : EntityOracle) (ss : List SocketState) :
    ∀ orn : Option Nat,
      (findSO_go entity ss none orn).1
        = ((resolvedPlugs entity ss).find? (fun p => srcShaderTest p.2)).map Prod.fst := by
  induction ss with
  | nil => intro orn; rfl
  | cons s rest ih =>
    intro orn
    by_cases hph : pyTruthyNat (socketPlugHash s) = true
    · cases he : entity ((socketPlugHash s).getD 0) with
      | none =>
        rw [resolvedPlugs_cons_fail entity s rest hph he]
        simp only [findSO_go, hph, he]; simp; exact ih _
      | some d =>
        rw [resolvedPlugs_cons_ok entity s rest d hph he]
        by_cases hsh : srcShaderTest d = true
        · rw [List.find?_cons_of_pos _ (by simpa using hsh)]
          simp only [findSO_go, hph, he, Bool.not_true]
          rw [if_neg (by simp)]
          simp only [pyTruthyNat, Bool.not_false, Bool.true_and, hsh, if_true]
          rw [findSO_go_fst_of_truthy entity rest _ _ hph]
          simp [(eq_some_getD_of_pyTruthyNat hph).symm]
        · rw [List.find?_cons_of_neg _ (by simpa using hsh)]
          simp only [findSO_go, hph, he, Bool.not_true]
          rw [if_neg (by simp)]
          simp only [hsh, Bool.and_false, Bool.false_eq_true, if_false]
          exact ih _
    · rw [resolvedPlugs_cons_skip entity s rest (by simpa using hph)]
      simp only [findSO_go, Bool.not_eq_true] at hph ⊢
      simp [hph]; exact ih _

theorem findSO_go_snd_none (entity : EntityOracle) (ss : List SocketState) :
    ∀ sh : Option Nat,
      (findSO_go entity ss sh none).2
        = ((resolvedPlugs entity ss).find? (fun p => srcOrnamentTest p.2)).map Prod.fst := by
  induction ss with
  | nil => intro sh; rfl
  | cons s rest ih =>
    intro sh
    by_cases hph : pyTruthyNat (socketPlugHash s) = true
    · cases he : entity ((socketPlugHash s).getD 0) with
      | none =>
        rw [resolvedPlugs_cons_fail entity s rest hph he]
        simp only [findSO_go, hph, he]; simp; exact ih _
      | some d =>
        rw [resolvedPlugs_cons_ok entity s rest d hph he]
        by_cases hor : srcOrnamentTest d = true
        · rw [List.find?_cons_of_pos _ (by simpa using hor)]
          simp only [findSO_go, hph, he, Bool.not_true]
          rw [if_neg (by simp)]
          simp only [pyTruthyNat, Bool.not_false, Bool.true_and, hor, if_true]
          rw [findSO_go_snd_of_truthy entity rest _ _ hph]
          simp [(eq_some_getD_of_pyTruthyNat hph).symm]
        · rw [List.find?_cons_of_neg _ (by simpa using hor)]
          simp only [findSO_go, hph, he, Bool.not_true]
          rw [if_neg (by simp)]
          simp only [hor, Bool.and_false, Bool.false_eq_true, if_false]
          exact ih _
    · rw [resolvedPlugs_cons_skip entity s rest (by simpa using hph)]
      simp only [findSO_go, Bool.not_eq_true] at hph ⊢
      simp [hph]; exact ih _



theorem extractSkipTest_eq (d : EntityDef) :
    (strContainsSub (strToLower (d.plugCategoryIdentifier.getD "")) "shader"
        || strToLower (d.itemTypeDisplayName.getD "") == "shader"
        || strContainsSub (strToLower (d.itemTypeDisplayName.getD "")) "ornament"
        || strContainsSub (strToLower (d.plugCategoryIdentifier.getD "")) "skin")
      = (specIsShader d || specIsOrnament d) := by
  simp [specIsShader, specIsOrnament, Bool.or_assoc]

theorem extractPerks_go_eq (entity : EntityOracle) (ss : List SocketState) :
    extractPerks_go entity ss
      = ((resolvedPlugs entity ss).filter
          (fun p => !(specIsShader p.2 || specIsOrnament p.2) && specIsPerkCat p.2)).map
            Prod.fst := by
  induction ss with
  | nil => rfl
  | cons s rest ih =>
    by_cases hph : pyTruthyNat (socketPlugHash s) = true
    · cases he : entity ((socketPlugHash s).getD 0) with
      | none =>
        rw [resolvedPlugs_cons_fail entity s rest hph he]
        simp only [extractPerks_go, hph, he, Bool.not_true]
        rw [if_neg (by simp)]
        exact ih
      | some d =>
        rw [resolvedPlugs_cons_ok entity s rest d hph he]
        simp only [extractPerks_go, hph, he, Bool.not_true]
        rw [if_neg (by simp)]
        simp only [pyOrStr_empty]
        rw [extractSkipTest_eq d]
        by_cases hskip : (specIsShader d || specIsOrnament d) = true
        · rw [if_pos hskip, List.filter_cons_of_neg (by simp [hskip])]
          exact ih
        · rw [if_neg hskip]
          by_cases hperk : specIsPerkCat d = true
          · rw [if_pos (by simpa [specIsPerkCat] using hperk),
              List.filter_cons_of_pos (by simp [Bool.not_eq_true] at hskip; simp [hskip, hperk])]
            simp only [List.map_cons]
            rw [ih]
          · rw [if_neg (by simpa [specIsPerkCat] using hperk),
              List.filter_cons_of_neg (by simp [hperk])]
            exact ih
    · rw [resolvedPlugs_cons_skip entity s rest (by simpa using hph)]
      simp only [Bool.not_eq_true] at hph
      simp only [extractPerks_go]
      rw [if_pos (by simp [hph])]
      exact ih


/-- C2: For every socket list, classification reads each socket's plugged
identifier (`plug.plugItemHash` first, socket-level `plugHash` second, first
non-empty wins), resolves its definition, and classifies with first-match-wins
precedence in socket order: the shader is the first resolved plug passing the
shader test (category contains "shader" case-insensitively, or type display
name equals "Shader" case-insensitively), the ornament the first passing the
ornament test (type display name contains "ornament", or category contains
"skin"), and the perks are the resolved plugs passing neither test whose
category contains one of the six fixed substrings, in socket order, truncated
to the first 6.  In particular a single plug with category
"exotic_all_skins" and type display name "Ornament" is the ornament (not
shader, not perk), and a single plug with category "weapon_frames" is a perk
(not shader, not ornament). -/
theorem classify_matches_spec (entity : EntityOracle) (sc : SocketsComp) :
    ((find_applied_shader_and_ornament entity sc).1
        = ((resolvedPlugs entity (socketsOf sc)).find?
            (fun p => specIsShader p.2)).map Prod.fst
      ∧ (find_applied_shader_and_ornament entity sc).2
        = ((resolvedPlugs entity (socketsOf sc)).find?
            (fun p => specIsOrnament p.2)).map Prod.fst
      ∧ extract_visible_perks entity sc
        = (((resolvedPlugs entity (socketsOf sc)).filter
            (fun p => !(specIsShader p.2 || specIsOrnament p.2) && specIsPerkCat p.2)).map
              Prod.fst).take 6)
    ∧ (find_applied_shader_and_ornament
          (fun h => if h = 500 then
            some ⟨some "Nice Ornament", none, some "Ornament", none, some "exotic_all_skins"⟩
          else none)
          ⟨some [⟨some ⟨some 500⟩, none⟩]⟩ = (none, some 500)
        ∧ extract_visible_perks
          (fun h => if h = 500 then
            some ⟨some "Nice Ornament", none, some "Ornament", none, some "exotic_all_skins"⟩
          else none)
          ⟨some [⟨some ⟨some 500⟩, none⟩]⟩ = [])
    ∧ (find_applied_shader_and_ornament
          (fun h => if h = 600 then
            some ⟨some "Frame", none, some "Intrinsic", none, some "weapon_frames"⟩
          else none)
          ⟨some [⟨some ⟨some 600⟩, none⟩]⟩ = (none, none)
        ∧ extract_visible_perks
          (fun h => if h = 600 then
            some ⟨some "Frame", none, some "Intrinsic", none, some "weapon_frames"⟩
          else none)
          ⟨some [⟨some ⟨some 600⟩, none⟩]⟩ = [600]) := by
  have hsh : (fun p : Nat × EntityDef => srcShaderTest p.2)
      = fun p => specIsShader p.2 := funext fun p => srcShaderTest_eq_spec p.2
  have hor : (fun p : Nat × EntityDef => srcOrnamentTest p.2)
      = fun p => specIsOrnament p.2 := funext fun p => srcOrnamentTest_eq_spec p.2
  refine ⟨⟨?_, ?_, ?_⟩, by constructor <;> decide, by constructor <;> decide⟩
  · simp only [find_applied_shader_and_ornament]
    rw [findSO_go_fst_none entity (socketsOf sc) none, hsh]
  · simp only [find_applied_shader_and_ornament]
    rw [findSO_go_snd_none entity (socketsOf sc) none, hor]
  · simp only [extract_visible_perks]
    rw [extractPerks_go_eq]


/-! ## Composition and skip lemmas for the socket scans -/

theorem findSO_go_append (entity : EntityOracle) (xs : List SocketState) :
    ∀ (ys : List SocketState) (sh orn : Option Nat),
      findSO_go entity (xs ++ ys) sh orn
        = findSO_go entity ys (findSO_go entity xs sh orn).1
            (findSO_go entity xs sh orn).2 := by
  induction xs with
  | nil => intro ys sh orn; rfl
  | cons s rest ih =>
    intro ys sh orn
    simp only [List.cons_append, findSO_go]
    by_cases hph : pyTruthyNat (socketPlugHash s) = true
    · cases he : entity ((socketPlugHash s).getD 0) with
      | none => simp [hph, he, ih]
      | some d => simp [hph, he, ih]
    · simp only [Bool.not_eq_true] at hph
      simp [hph, ih]

theorem findSO_go_cons_skip (entity : EntityOracle) (s : SocketState)
    (h : pyTruthyNat (socketPlugHash s) = false
      ∨ entity ((socketPlugHash s).getD 0) = none) (ys : List SocketState)
    (sh orn : Option Nat) :
    findSO_go entity (s :: ys) sh orn = findSO_go entity ys sh orn := by
  rcases h with h | h
  · simp only [findSO_go]
    rw [if_pos (by simp [h])]
  · by_cases hph : pyTruthyNat (socketPlugHash s) = true
    · simp [findSO_go, hph, h]
    · simp only [Bool.not_eq_true] at hph
      simp [findSO_go, hph]

theorem extractPerks_go_append (entity : EntityOracle) (xs : List SocketState) :
    ∀ ys : List SocketState,
      extractPerks_go entity (xs ++ ys)
        = extractPerks_go entity xs ++ extractPerks_go entity ys := by
  induction xs with
  | nil => intro ys; rfl
  | cons s rest ih =>
    intro ys
    simp only [List.cons_append, extractPerks_go]
    by_cases hph : pyTruthyNat (socketPlugHash s) = true
    · cases he : entity ((socketPlugHash s).getD 0) with
      | none => simp [hph, he, ih]
      | some d =>
        simp only [hph, he, Bool.not_true, Bool.false_eq_true, if_false]
        split
        · exact ih ys
        · split
          · simp [ih ys]
          · exact ih ys
    · simp only [Bool.not_eq_true] at hph
      simp [hph, ih]

theorem extractPerks_go_cons_skip (entity : EntityOracle) (s : SocketState)
    (h : pyTruthyNat (socketPlugHash s) = false
      ∨ entity ((socketPlugHash s).getD 0) = none) (ys : List SocketState) :
    extractPerks_go entity (s :: ys) = extractPerks_go entity ys := by
  rcases h with h | h
  · simp only [extractPerks_go]
    rw [if_pos (by simp [h])]
  · by_cases hph : pyTruthyNat (socketPlugHash s) = true
    · simp [extractPerks_go, hph, h]
    · simp only [Bool.not_eq_true] at hph
      simp [extractPerks_go, hph]

theorem buildItems_append (entity : EntityOracle) (sd : List (String × SocketsComp))
    (xs : List EquipItem) : ∀ ys : List EquipItem,
      buildItems entity sd (xs ++ ys) = buildItems entity sd xs ++ buildItems entity sd ys := by
  induction xs with
  | nil => intro ys; rfl
  | cons it rest ih =>
    intro ys
    simp only [List.cons_append, buildItems]
    by_cases hh : pyTruthyNat it.itemHash = true
    · simp [hh, ih]
    · simp only [Bool.not_eq_true] at hh
      simp [hh, ih]

theorem buildItems_cons_skip (entity : EntityOracle) (sd : List (String × SocketsComp))
    (it : EquipItem) (h : pyTruthyNat it.itemHash = false) (ys : List EquipItem) :
    buildItems entity sd (it :: ys) = buildItems entity sd ys := by
  simp only [buildItems]
  rw [if_pos (by simp [h])]


/-- C7: a socket whose plugged definition cannot be resolved (the lookup
raises) is skipped on its own: both scans classify the remaining sockets as if
the failing socket were absent, and the enclosing Equipped Item Record is
still produced, identical to the record built without that socket (so the
affected category is simply left absent/empty); nothing aborts. -/
theorem lookup_failure_skips_socket (entity : EntityOracle)
    (xs ys : List SocketState) (s : SocketState)
    (hph : pyTruthyNat (socketPlugHash s) = true)
    (he : entity ((socketPlugHash s).getD 0) = none)
    (iid : String) (hiid : iid ≠ "") (it : EquipItem)
    (hit : it.itemInstanceId = some iid) (hh : Nat) :
    find_applied_shader_and_ornament entity ⟨some (xs ++ s :: ys)⟩
        = find_applied_shader_and_ornament entity ⟨some (xs ++ ys)⟩
    ∧ extract_visible_perks entity ⟨some (xs ++ s :: ys)⟩
        = extract_visible_perks entity ⟨some (xs ++ ys)⟩
    ∧ buildItemRec entity [(iid, ⟨some (xs ++ s :: ys)⟩)] it hh
        = buildItemRec entity [(iid, ⟨some (xs ++ ys)⟩)] it hh := by
  have h1 : find_applied_shader_and_ornament entity ⟨some (xs ++ s :: ys)⟩
      = find_applied_shader_and_ornament entity ⟨some (xs ++ ys)⟩ := by
    show findSO_go entity (xs ++ s :: ys) none none = findSO_go entity (xs ++ ys) none none
    rw [findSO_go_append, findSO_go_cons_skip entity s (Or.inr he), ← findSO_go_append]
  have h2 : extract_visible_perks entity ⟨some (xs ++ s :: ys)⟩
      = extract_visible_perks entity ⟨some (xs ++ ys)⟩ := by
    show (extractPerks_go entity (xs ++ s :: ys)).take 6
      = (extractPerks_go entity (xs ++ ys)).take 6
    rw [extractPerks_go_append, extractPerks_go_cons_skip entity s (Or.inr he),
      ← extractPerks_go_append]
  refine ⟨h1, h2, ?_⟩
  have hts : pyTruthyStr (some iid) = true := by simp [pyTruthyStr, hiid]
  simp only [buildItemRec, hit, hts, if_true, List.lookup, beq_self_eq_true, Option.getD_some]
  rw [h1, h2]

/-- C7 witness: a single unresolvable socket inside an otherwise empty socket
list, on an item with instance id "i". -/
theorem lookup_failure_skips_socket_witness :
    (pyTruthyNat (socketPlugHash ⟨some ⟨some 7⟩, none⟩) = true
      ∧ (fun _ : Nat => (none : Option EntityDef))
          ((socketPlugHash ⟨some ⟨some 7⟩, none⟩).getD 0) = none
      ∧ ("i" : String) ≠ ""
      ∧ (⟨some "i", some 9⟩ : EquipItem).itemInstanceId = some "i")
    ∧ (find_applied_shader_and_ornament (fun _ => none)
          ⟨some ([] ++ ⟨some ⟨some 7⟩, none⟩ :: [])⟩
        = find_applied_shader_and_ornament (fun _ => none) ⟨some ([] ++ [])⟩
      ∧ extract_visible_perks (fun _ => none) ⟨some ([] ++ ⟨some ⟨some 7⟩, none⟩ :: [])⟩
        = extract_visible_perks (fun _ => none) ⟨some ([] ++ [])⟩
      ∧ buildItemRec (fun _ => none) [("i", ⟨some ([] ++ ⟨some ⟨some 7⟩, none⟩ :: [])⟩)]
          ⟨some "i", some 9⟩ 9
        = buildItemRec (fun _ => none) [("i", ⟨some ([] ++ [])⟩)] ⟨some "i", some 9⟩ 9) :=
  ⟨⟨by decide, rfl, by decide, rfl⟩,
    lookup_failure_skips_socket (fun _ => none) [] [] ⟨some ⟨some 7⟩, none⟩
      (by decide) rfl "i" (by decide) ⟨some "i", some 9⟩ rfl 9⟩

/-- C10: presence of numeric identifiers is decided by truthiness: an equipped
item whose itemHash is 0 is silently skipped from the export, and a socket
whose plug hash is 0 under both response keys is treated as unplugged and
skipped by both the shader/ornament scan and the perk scan. -/
theorem truthiness_zero_hash_skipped (entity : EntityOracle)
    (sd : List (String × SocketsComp))
    (itxs itys : List EquipItem) (it : EquipItem) (hit : it.itemHash = some 0)
    (xs ys : List SocketState) (s : SocketState)
    (hs1 : s.plug = some ⟨some 0⟩) (hs2 : s.plugHash = some 0) :
    buildItems entity sd (itxs ++ it :: itys) = buildItems entity sd (itxs ++ itys)
    ∧ find_applied_shader_and_ornament entity ⟨some (xs ++ s :: ys)⟩
        = find_applied_shader_and_ornament entity ⟨some (xs ++ ys)⟩
    ∧ extract_visible_perks entity ⟨some (xs ++ s :: ys)⟩
        = extract_visible_perks entity ⟨some (xs ++ ys)⟩ := by
  have hph : pyTruthyNat (socketPlugHash s) = false := by
    simp [socketPlugHash, pyOrNat, pyTruthyNat, hs1, hs2]
  refine ⟨?_, ?_, ?_⟩
  · rw [buildItems_append, buildItems_cons_skip entity sd it (by simp [hit, pyTruthyNat]),
      ← buildItems_append]
  · show findSO_go entity (xs ++ s :: ys) none none = findSO_go entity (xs ++ ys) none none
    rw [findSO_go_append, findSO_go_cons_skip entity s (Or.inl hph), ← findSO_go_append]
  · show (extractPerks_go entity (xs ++ s :: ys)).take 6
      = (extractPerks_go entity (xs ++ ys)).take 6
    rw [extractPerks_go_append, extractPerks_go_cons_skip entity s (Or.inl hph),
      ← extractPerks_go_append]

/-- C10 witness: one zero-hash equipped item and one zero-hash socket. -/
theorem truthiness_zero_hash_skipped_witness :
    ((⟨some "a", some 0⟩ : EquipItem).itemHash = some 0
      ∧ (⟨some ⟨some 0⟩, some 0⟩ : SocketState).plug = some ⟨some 0⟩
      ∧ (⟨some ⟨some 0⟩, some 0⟩ : SocketState).plugHash = some 0)
    ∧ (buildItems (fun _ => none) [] ([] ++ ⟨some "a", some 0⟩ :: [])
        = buildItems (fun _ => none) [] ([] ++ [])
      ∧ find_applied_shader_and_ornament (fun _ => none)
          ⟨some ([] ++ ⟨some ⟨some 0⟩, some 0⟩ :: [])⟩
        = find_applied_shader_and_ornament (fun _ => none) ⟨some ([] ++ [])⟩
      ∧ extract_visible_perks (fun _ => none) ⟨some ([] ++ ⟨some ⟨some 0⟩, some 0⟩ :: [])⟩
        = extract_visible_perks (fun _ => none) ⟨some ([] ++ [])⟩) :=
  ⟨⟨rfl, rfl, rfl⟩,
    truthiness_zero_hash_skipped (fun _ => none) [] [] [] ⟨some "a", some 0⟩ rfl
      [] [] ⟨some ⟨some 0⟩, some 0⟩ rfl rfl⟩


/-! ## Lemmas for character selection (claim C3) -/

theorem encodeTs_pos (y mo d h mi se t : Nat) (he : encodeTs y mo d h mi se = some t) :
    0 < t := by
  unfold encodeTs at he
  split at he
  · rename_i hr
    injection he with he
    omega
  · exact Option.noConfusion he

theorem parseLastPlayed_pos (s : String) (t : Nat) (h : parseLastPlayed s = some t) :
    0 < t := by
  unfold parseLastPlayed at h
  split at h
  · split at h
    · exact encodeTs_pos _ _ _ _ _ _ _ h
    · exact Option.noConfusion h
  · exact Option.noConfusion h

theorem pickLatest_go_nil_chars : ∀ (ids : List String) (latest : Option String) (t : Nat),
    pickLatest_go [] ids latest t = .ok latest := by
  intro ids
  induction ids with
  | nil => intro latest t; rfl
  | cons i rest ih => intro latest t; simp [pickLatest_go, List.lookup, ih]

/-- C3 counterexample: one listed character whose metadata is present but whose
timestamp does not parse.  The claim says the selection falls back to the first
character id; the code instead raises an uncaught `ValueError` from
`time.strptime` (line 227 has no try/except), so the run crashes. -/
theorem pick_character_unparsable_not_fallback :
    pick_character_id ⟨["A"], [("A", ⟨some "not-a-timestamp"⟩)], [], []⟩ "latest"
        = .error (.crash "ValueError: time data does not match format")
    ∧ pick_character_id ⟨["A"], [("A", ⟨some "not-a-timestamp"⟩)], [], []⟩ "latest"
        ≠ .ok "A" := by
  constructor <;> decide

/-- C3 (amended): with "latest", `pick_character_id` returns the character id
with the greatest last-played timestamp (with T1 < T2 it returns the id with
T2), breaking ties by first-seen order in the character-id list; it falls back
to the first character id when no listed character has a metadata record (a
listed character whose metadata is present but whose timestamp is missing or
unparsable instead crashes the run, see the counterexample); any other
selector string is returned verbatim, unvalidated. -/
theorem pick_character_latest_spec
    (eqd : List (String × EquipBlock)) (sd : List (String × SocketsComp))
    (cd : List (String × CharData))
    (a b da db : String) (t1 t2 : Nat)
    (hab : a ≠ b) (hb : b ≠ "")
    (hda : parseLastPlayed da = some t1) (hdb : parseLastPlayed db = some t2)
    (hlt : t1 < t2)
    (c e dc de : String) (u : Nat)
    (hce : c ≠ e) (hc : c ≠ "")
    (hdc : parseLastPlayed dc = some u) (hde : parseLastPlayed de = some u)
    (ids : List String) (hids : ids ≠ []) (choice : String) (hch : choice ≠ "latest") :
    pick_character_id ⟨[a, b], [(a, ⟨some da⟩), (b, ⟨some db⟩)], eqd, sd⟩ "latest" = .ok b
    ∧ pick_character_id ⟨[c, e], [(c, ⟨some dc⟩), (e, ⟨some de⟩)], eqd, sd⟩ "latest" = .ok c
    ∧ pick_character_id ⟨ids, [], eqd, sd⟩ "latest" = .ok (ids.headD "")
    ∧ pick_character_id ⟨ids, cd, eqd, sd⟩ choice = .ok choice := by
  have hp1 : 0 < t1 := parseLastPlayed_pos _ _ hda
  have hpu : 0 < u := parseLastPlayed_pos _ _ hdc
  have hba : (b == a) = false := by simp [Ne.symm hab]
  have hec : (e == c) = false := by simp [Ne.symm hce]
  refine ⟨?_, ?_, ?_, ?_⟩
  · simp [pick_character_id, pickLatest_go, List.lookup, hba, hda, hdb, hp1, hlt, pyOrStr, hb,
      Nat.lt_of_lt_of_le hp1 (Nat.le_of_lt hlt)]
  · simp [pick_character_id, pickLatest_go, List.lookup, hec, hdc, hde, hpu, pyOrStr, hc]
  · cases ids with
    | nil => exact absurd rfl hids
    | cons i rest =>
      simp [pick_character_id, pickLatest_go_nil_chars, pyOrStr]
  · simp [pick_character_id, hids, hch]

/-- C3 witness: two characters played in 2023 and 2024 (the later wins), a tie
between two 2020 timestamps (first-seen wins), the no-metadata fallback and a
verbatim literal selector. -/
theorem pick_character_latest_spec_witness :
    (parseLastPlayed "2023-01-01T00:00:00" = some 75138137280
      ∧ parseLastPlayed "2024-01-01T00:00:00" = some 75175277760
      ∧ 75138137280 < 75175277760
      ∧ parseLastPlayed "2020-05-05T05:05:05" = some 75038519715
      ∧ (["E"] : List String) ≠ [] ∧ ("X" : String) ≠ "latest")
    ∧ (pick_character_id
          ⟨["A", "B"], [("A", ⟨some "2023-01-01T00:00:00"⟩),
            ("B", ⟨some "2024-01-01T00:00:00"⟩)], [], []⟩ "latest" = .ok "B"
      ∧ pick_character_id
          ⟨["C", "D"], [("C", ⟨some "2020-05-05T05:05:05"⟩),
            ("D", ⟨some "2020-05-05T05:05:05"⟩)], [], []⟩ "latest" = .ok "C"
      ∧ pick_character_id ⟨["E"], [], [], []⟩ "latest" = .ok (["E"].headD "")
      ∧ pick_character_id ⟨["E"], [], [], []⟩ "X" = .ok "X") :=
  ⟨⟨rfl, rfl, by decide, rfl, by decide, by decide⟩,
    pick_character_latest_spec [] [] [] "A" "B" "2023-01-01T00:00:00" "2024-01-01T00:00:00"
      75138137280 75175277760 (by decide) (by decide) rfl rfl (by decide)
      "C" "D" "2020-05-05T05:05:05" "2020-05-05T05:05:05" 75038519715
      (by decide) (by decide) rfl rfl ["E"] (by decide) "X" (by decide)⟩


/-! ## Claims C1 and C6: the refresh-and-retry cycle of `bnet_get` -/

/-- C1: for every authorized GET whose first response is a 401 followed by a
successful refresh and a successful retried response, `bnet_get` makes exactly
two calls to the operation path and one to the refresh endpoint, merges the
refresh response into the credential record reloaded from the token store,
persists it (the token file then holds the new access token), updates the
in-memory Authorization header, retries exactly once, and returns the retried
response's payload. -/
theorem bnet_refresh_retry_success {α : Type} (env : NetEnv α) (path : String)
    (st : AuthState) (tok newTok : TokRecord) (newAccess : String)
    (hfile : st.tokensFile = some tok)
    (h401 : (env.get path st.authHeader).status = 401)
    (hcid : env.clientId ≠ "") (hcs : env.clientSecret ≠ "")
    (hrefresh : env.refresh (tok.refresh_token.getD "") = .ok newTok)
    (hat : newTok.access_token = some newAccess)
    (h200 : (env.get path (some ("Bearer " ++ newAccess))).status = 200)
    (hec : (env.get path (some ("Bearer " ++ newAccess))).errorCode = some 1) :
    bnet_get env path st
      = ({ tokensFile := some (tok.updateWith newTok),
           authHeader := some ("Bearer " ++ newAccess) },
         [.get path, .refreshPost, .get path],
         .ok (env.get path (some ("Bearer " ++ newAccess))).response)
    ∧ [NetCallRec.get path, .refreshPost, .get path].count (.get path) = 2
    ∧ [NetCallRec.get path, .refreshPost, .get path].count .refreshPost = 1
    ∧ (tok.updateWith newTok).access_token = some newAccess := by
  have hmerge : (tok.updateWith newTok).access_token = some newAccess := by
    simp [TokRecord.updateWith, hat]
  refine ⟨?_, ?_, ?_, hmerge⟩
  · simp [bnet_get, bnet_get_noretry, load_tokens, oauth_refresh, hfile, h401, hcid, hcs,
      hrefresh, hmerge, h200, hec]
  · have e1 : (NetCallRec.get path == NetCallRec.get path) = true := by
      show (path == path) = true
      simp
    have e2 : (NetCallRec.refreshPost == NetCallRec.get path) = false := rfl
    simp [List.count_cons, List.count_nil, e1, e2]
  · have e3 : (NetCallRec.get path == NetCallRec.refreshPost) = false := rfl
    have e4 : (NetCallRec.refreshPost == NetCallRec.refreshPost) = true := rfl
    simp [List.count_cons, List.count_nil, e3, e4]

/-- C1 witness: old token rejected with 401, refresh succeeds, retried call
with the new token succeeds. -/
theorem bnet_refresh_retry_success_witness :
    (wSt.tokensFile = some wTok
      ∧ (wEnvOK.get "/p" wSt.authHeader).status = 401
      ∧ wEnvOK.clientId ≠ "" ∧ wEnvOK.clientSecret ≠ ""
      ∧ wEnvOK.refresh (wTok.refresh_token.getD "") = .ok wNewTok
      ∧ wNewTok.access_token = some "new"
      ∧ (wEnvOK.get "/p" (some ("Bearer " ++ "new"))).status = 200
      ∧ (wEnvOK.get "/p" (some ("Bearer " ++ "new"))).errorCode = some 1)
    ∧ (bnet_get wEnvOK "/p" wSt
        = ({ tokensFile := some (wTok.updateWith wNewTok),
             authHeader := some ("Bearer " ++ "new") },
           [.get "/p", .refreshPost, .get "/p"],
           .ok (wEnvOK.get "/p" (some ("Bearer " ++ "new"))).response)
      ∧ [NetCallRec.get "/p", .refreshPost, .get "/p"].count (.get "/p") = 2
      ∧ [NetCallRec.get "/p", .refreshPost, .get "/p"].count .refreshPost = 1
      ∧ (wTok.updateWith wNewTok).access_token = some "new") :=
  ⟨⟨rfl, rfl, by decide, by decide, rfl, rfl, rfl, rfl⟩,
    bnet_refresh_retry_success wEnvOK "/p" wSt wTok wNewTok "new"
      rfl rfl (by decide) (by decide) rfl rfl rfl rfl⟩

/-- C6: when the original call and the once-retried call both return 401, the
run fails with a fatal error (a raised BungieError; no further retry — the
trace still holds exactly two calls to the path), and the token file is left
exactly in the state produced by the refresh, not rolled back. -/
theorem bnet_second_401_fatal {α : Type} (env : NetEnv α) (path : String)
    (st : AuthState) (tok newTok : TokRecord) (newAccess : String)
    (hfile : st.tokensFile = some tok)
    (h401 : (env.get path st.authHeader).status = 401)
    (hcid : env.clientId ≠ "") (hcs : env.clientSecret ≠ "")
    (hrefresh : env.refresh (tok.refresh_token.getD "") = .ok newTok)
    (hat : newTok.access_token = some newAccess)
    (h401b : (env.get path (some ("Bearer " ++ newAccess))).status = 401) :
    bnet_get env path st
      = ({ tokensFile := some (tok.updateWith newTok),
           authHeader := some ("Bearer " ++ newAccess) },
         [.get path, .refreshPost, .get path],
         .error (.bungie ("HTTP "
           ++ toString (env.get path (some ("Bearer " ++ newAccess))).status
           ++ ": " ++ (env.get path (some ("Bearer " ++ newAccess))).text)))
    ∧ (bnet_get env path st).1.tokensFile = some (tok.updateWith newTok)
    ∧ [NetCallRec.get path, .refreshPost, .get path].count (.get path) = 2 := by
  have hmerge : (tok.updateWith newTok).access_token = some newAccess := by
    simp [TokRecord.updateWith, hat]
  have hmain : bnet_get env path st
      = ({ tokensFile := some (tok.updateWith newTok),
           authHeader := some ("Bearer " ++ newAccess) },
         [.get path, .refreshPost, .get path],
         .error (.bungie ("HTTP "
           ++ toString (env.get path (some ("Bearer " ++ newAccess))).status
           ++ ": " ++ (env.get path (some ("Bearer " ++ newAccess))).text))) := by
    simp [bnet_get, bnet_get_noretry, load_tokens, oauth_refresh, hfile, h401, hcid, hcs,
      hrefresh, hmerge, h401b]
  refine ⟨hmain, by rw [hmain], ?_⟩
  have e1 : (NetCallRec.get path == NetCallRec.get path) = true := by
    show (path == path) = true
    simp
  have e2 : (NetCallRec.refreshPost == NetCallRec.get path) = false := rfl
  simp [List.count_cons, List.count_nil, e1, e2]

/-- C6 witness: the environment rejects every request with 401. -/
theorem bnet_second_401_fatal_witness :
    (wSt.tokensFile = some wTok
      ∧ (wEnvBad.get "/p" wSt.authHeader).status = 401
      ∧ wEnvBad.clientId ≠ "" ∧ wEnvBad.clientSecret ≠ ""
      ∧ wEnvBad.refresh (wTok.refresh_token.getD "") = .ok wNewTok
      ∧ wNewTok.access_token = some "new"
      ∧ (wEnvBad.get "/p" (some ("Bearer " ++ "new"))).status = 401)
    ∧ (bnet_get wEnvBad "/p" wSt
        = ({ tokensFile := some (wTok.updateWith wNewTok),
             authHeader := some ("Bearer " ++ "new") },
           [.get "/p", .refreshPost, .get "/p"],
           .error (.bungie ("HTTP "
             ++ toString (wEnvBad.get "/p" (some ("Bearer " ++ "new"))).status
             ++ ": " ++ (wEnvBad.get "/p" (some ("Bearer " ++ "new"))).text)))
      ∧ (bnet_get wEnvBad "/p" wSt).1.tokensFile = some (wTok.updateWith wNewTok)
      ∧ [NetCallRec.get "/p", .refreshPost, .get "/p"].count (.get "/p") = 2) :=
  ⟨⟨rfl, rfl, by decide, by decide, rfl, rfl, rfl⟩,
    bnet_second_401_fatal wEnvBad "/p" wSt wTok wNewTok "new"
      rfl rfl (by decide) (by decide) rfl rfl rfl⟩

/-! ## Helper lemmas for the `main` flow -/

theorem pick_character_verbatim (prof : Profile) (choice : String)
    (hids : prof.characterIds ≠ []) (hch : choice ≠ "latest") :
    pick_character_id prof choice = .ok choice := by
  simp [pick_character_id, hids, hch]

theorem lookup_eq_none_of_forall_ne {β : Type} (k : String) (l : List (String × β))
    (h : ∀ p ∈ l, p.1 ≠ k) : List.lookup k l = none := by
  induction l with
  | nil => rfl
  | cons p rest ih =>
    have hk : (k == p.1) = false := by
      simp only [beq_eq_false_iff_ne]
      exact fun he => h p (List.mem_cons_self p rest) he.symm
    simp only [List.lookup, hk]
    exact ih (fun q hq => h q (List.mem_cons_of_mem p hq))

/-- The output file is only ever touched on the success path: every run either
leaves it unchanged or finishes with the success message. -/
theorem mainRun_outFile_cases (env : MainEnv) (args : Args) (w : MainWorld) :
    (mainRun env args w).1.outFile = w.outFile
      ∨ ∃ s, (mainRun env args w).2.2 = .ok s := by
  unfold mainRun
  repeat' split
  all_goals first | (left; rfl) | (right; exact ⟨_, rfl⟩)

/-! ## Claims C8, C9, C4, C5: the `main` flow -/

/-- C8: every run that ends in an error (any fatal kind) exits with a non-zero
status and leaves the output file at the target path exactly as it was — no
partial output file is produced before the export step. -/
theorem fatal_error_no_output (env : MainEnv) (args : Args) (w : MainWorld) (e : RunErr)
    (h : (mainRun env args w).2.2 = .error e) :
    (mainRun env args w).1.outFile = w.outFile ∧ exitCode (.error e) ≠ 0 := by
  refine ⟨?_, by cases e <;> simp [exitCode]⟩
  rcases mainRun_outFile_cases env args w with hc | ⟨s, hs⟩
  · exact hc
  · rw [h] at hs
    exact Except.noConfusion hs

/-- C8 witness: a run with the API key missing fails and writes nothing. -/
theorem fatal_error_no_output_witness :
    (mainRun c8Env c8Args c8World).2.2
        = .error (.bungie "BUNGIE_API_KEY env var not set.")
    ∧ ((mainRun c8Env c8Args c8World).1.outFile = c8World.outFile
      ∧ exitCode (.error (.bungie "BUNGIE_API_KEY env var not set.")) ≠ 0) :=
  ⟨rfl, fatal_error_no_output c8Env c8Args c8World _ rfl⟩

/-- C9: a literal character selector that occurs nowhere in the snapshot still
completes successfully (exit status 0): the selector is used as-is, the
equipment lookup defaults to an empty list, and an output document with an
empty items list is written. -/
theorem unknown_selector_empty_export (env : MainEnv) (args : Args) (w : MainWorld)
    (tok : TokRecord) (mems : Memberships) (m : Mem) (ms : List Mem) (prof : Profile)
    (hw : w.tokensFile = some tok) (hacc : pyTruthyStr tok.access_token = true)
    (hkey : env.apiKey ≠ "")
    (hm : env.membershipsResp = .ok mems) (hms : mems.destinyMemberships = m :: ms)
    (hp : env.profileResp m.membershipType m.membershipId = .ok prof)
    (hids : prof.characterIds ≠ [])
    (hch : args.character ≠ "latest")
    (hnotin : ∀ p ∈ prof.characterEquipmentData, p.1 ≠ args.character) :
    mainRun env args w
      = ({ w with
           authHeader := some ("Bearer " ++ tok.access_token.getD "")
           outFile := some ⟨m.membershipType, m.membershipId, args.character, []⟩ },
         [.memberships, .profileCall],
         .ok ("Wrote " ++ args.out ++ " with " ++ toString (0 : Nat)
           ++ " equipped items."))
    ∧ exitCode (mainRun env args w).2.2 = 0 := by
  have hlook : List.lookup args.character prof.characterEquipmentData = none :=
    lookup_eq_none_of_forall_ne _ _ hnotin
  have hpick : pick_character_id prof args.character = .ok args.character :=
    pick_character_verbatim prof args.character hids hch
  have hmain : mainRun env args w
      = ({ w with
           authHeader := some ("Bearer " ++ tok.access_token.getD "")
           outFile := some ⟨m.membershipType, m.membershipId, args.character, []⟩ },
         [.memberships, .profileCall],
         .ok ("Wrote " ++ args.out ++ " with " ++ toString (0 : Nat)
           ++ " equipped items.")) := by
    simp [mainRun, hw, hacc, hkey, hm, pick_first_destiny_membership, hms, hp, hpick,
      hlook, buildItems]
  exact ⟨hmain, by rw [hmain]; rfl⟩

/-- C9 witness: the literal selector "zz" appears nowhere in the snapshot. -/
theorem unknown_selector_empty_export_witness :
    (c9World.tokensFile = some ⟨some "t", some "r", none, none⟩
      ∧ pyTruthyStr (⟨some "t", some "r", none, none⟩ : TokRecord).access_token = true
      ∧ c9Env.apiKey ≠ ""
      ∧ c9Env.membershipsResp = .ok ⟨[⟨3, "m"⟩]⟩
      ∧ (⟨[⟨3, "m"⟩]⟩ : Memberships).destinyMemberships = ⟨3, "m"⟩ :: []
      ∧ c9Env.profileResp (⟨3, "m"⟩ : Mem).membershipType (⟨3, "m"⟩ : Mem).membershipId
          = .ok c9Prof
      ∧ c9Prof.characterIds ≠ []
      ∧ c9Args.character ≠ "latest"
      ∧ ∀ p ∈ c9Prof.characterEquipmentData, p.1 ≠ c9Args.character)
    ∧ (mainRun c9Env c9Args c9World
        = ({ c9World with
             authHeader := some ("Bearer "
               ++ (⟨some "t", some "r", none, none⟩ : TokRecord).access_token.getD "")
             outFile := some ⟨(⟨3, "m"⟩ : Mem).membershipType,
               (⟨3, "m"⟩ : Mem).membershipId, c9Args.character, []⟩ },
           [.memberships, .profileCall],
           .ok ("Wrote " ++ c9Args.out ++ " with " ++ toString (0 : Nat)
             ++ " equipped items."))
      ∧ exitCode (mainRun c9Env c9Args c9World).2.2 = 0) :=
  ⟨⟨rfl, rfl, by decide, rfl, rfl, rfl, by decide, by decide, by decide⟩,
    unknown_selector_empty_export c9Env c9Args c9World ⟨some "t", some "r", none, none⟩
      ⟨[⟨3, "m"⟩]⟩ ⟨3, "m"⟩ [] c9Prof rfl rfl (by decide) rfl rfl rfl (by decide)
      (by decide) (by decide)⟩

/-- C4 counterexample: a credential record that has an access token but lacks
`refresh_token` is not rejected at load time; the run proceeds to make network
calls (and here completes), contradicting "loading fails with an
invalid-record error before any network call" for records lacking the refresh
token. -/
theorem missing_refresh_token_not_checked :
    c4World.tokensFile = some ⟨some "t", none, none, none⟩
    ∧ (mainRun c4Env c4Args c4World).2.1 ≠ []
    ∧ (mainRun c4Env c4Args c4World).2.2
        = .ok "Wrote out.json with 0 equipped items." := by
  refine ⟨rfl, by decide, by decide⟩

/-- C4 (amended): a record whose `access_token` is missing or empty (in
particular a record lacking both tokens) halts the run with an invalid-record
BungieError before any network call is attempted, and a missing credential
file exits (status 1) before any network call; the refresh token, however, is
not validated at load time. -/
theorem missing_access_token_halts (env : MainEnv) (args : Args)
    (w1 w2 : MainWorld) (tok : TokRecord)
    (h1 : w1.tokensFile = some tok) (h2 : pyTruthyStr tok.access_token = false)
    (h3 : w2.tokensFile = none) :
    mainRun env args w1 = (w1, [], .error (.bungie "access_token missing in tokens.json"))
    ∧ mainRun env args w2 = (w2, [], .error .exited) := by
  constructor
  · simp [mainRun, h1, h2]
  · simp [mainRun, h3]

/-- C4 witness: a record lacking both tokens, and a missing file. -/
theorem missing_access_token_halts_witness :
    ((⟨some ⟨none, none, none, none⟩, none, none⟩ : MainWorld).tokensFile
        = some ⟨none, none, none, none⟩
      ∧ pyTruthyStr (⟨none, none, none, none⟩ : TokRecord).access_token = false
      ∧ (⟨none, none, none⟩ : MainWorld).tokensFile = none)
    ∧ (mainRun c4Env c4Args ⟨some ⟨none, none, none, none⟩, none, none⟩
        = (⟨some ⟨none, none, none, none⟩, none, none⟩, [],
           .error (.bungie "access_token missing in tokens.json"))
      ∧ mainRun c4Env c4Args ⟨none, none, none⟩
        = (⟨none, none, none⟩, [], .error .exited)) :=
  ⟨⟨rfl, rfl, rfl⟩,
    missing_access_token_halts c4Env c4Args _ _ ⟨none, none, none, none⟩ rfl rfl rfl⟩

set_option maxRecDepth 400000 in
/-- C5 counterexample: in the one-item no-sockets export, the record's
`appliedShader` JSON value is an object whose `itemHash` and `name` members
are null — it is not the JSON value `null` the claim asserts. -/
theorem export_appliedShader_not_null :
    ((mainRun c5Env c5Args c5World).1.outFile.map
        (fun d => d.items.map (fun r => (itemRecToJv r).getField "appliedShader")))
      = some [some (Jv.obj [("itemHash", Jv.null), ("name", Jv.null)])]
    ∧ Jv.obj [("itemHash", Jv.null), ("name", Jv.null)] ≠ Jv.null := by
  constructor
  · rfl
  · intro hcontra
    exact Jv.noConfusion hcontra

set_option maxRecDepth 400000 in
/-- C5 (amended): the one-item no-sockets export produces exactly one Equipped
Item Record whose `appliedShader` and `appliedOrnament` are objects with
`itemHash` and `name` both null (not the JSON value `null`) and whose
`visiblePerks` is empty, and the rendered JSON output parses back to exactly
the exported structure. -/
theorem export_single_item_roundtrip :
    mainRun c5Env c5Args c5World
      = (⟨some ⟨some "t", some "r", none, none⟩, some "Bearer t", some c5Doc⟩,
         [.memberships, .profileCall],
         .ok "Wrote out.json with 1 equipped items.")
    ∧ c5Doc.items
        = [⟨111, "111", none, none, some "i", ⟨none, none⟩, ⟨none, none⟩, []⟩]
    ∧ parseJson (renderJson (outDocToJv c5Doc)) = some (outDocToJv c5Doc) := by
  refine ⟨by decide, rfl, by rfl⟩

end DestinyGuardian
